import Mathlib

/-!
Shallow embedding of the session-bound identity resolution and
key-lifecycle orchestration layer of the `ringwork` repository.

The embedded code:
* `ringwork/components/access.py` — the `Restrict` page guard, the
  `EndUser` client token and `AccessControl.on_session_start`;
* `ringwork/components/sshkey.py` — the `CreateComponent`,
  `UploadComponent` and `SSHKeyComponent` handlers that generate SSH
  keys, upload them and delete them;
* `ringwork/pages/login_page.py` — the `LoginPage._login` handler;
* `ringwork/interfaces/sshkey.py` — the `PublicKeyAPI.get` and
  `PublicKeyAPI.download` endpoints.

External collaborators (the `xpw` account store, the `xkeys_ssh` key
ring and the `rio_xpw` access control) are modelled as explicit
parameters: the account store as a `fetch` function, the key ring as a
per-workspace association list together with a trace of the ring calls
the handlers issue, and the external generator / importer outcomes as
enumerated results.  Side effects of the Python handlers (banner text,
navigation, storage mutation) are returned explicitly.
-/

namespace Ringwork

/-- `xpw.Profile`: the authenticated identity resolved from a valid
token; only `username` and `workspace` are read by the embedded code. -/
structure Profile where
  username : String
  workspace : String
deriving DecidableEq

/-- `EndUser` from `ringwork/components/access.py`: the client-persisted
`(session_id, secret_key)` token. -/
structure EndUser where
  session_id : String
  secret_key : String
deriving DecidableEq

/-- The `xpw.Account` store, reduced to the only method the embedded
code calls: `fetch(session_id, secret_key)` returning a profile or
`None`. -/
structure Account where
  fetch : String → String → Option Profile

/-- `xkeys_ssh.SSHKeyPair`: the attribute record the embedded code reads
from the external keys library. -/
structure SSHKeyPair where
  algo : String
  fingerprint : String
  comment : String
  «private» : String
  public : String
  bits : Int
deriving DecidableEq

/-- `SSHKeyItem` from `ringwork/components/sshkey.py`. -/
structure SSHKeyItem where
  algorithm : String
  fingerprint : String
  comment : String
  «private» : String
  public : String
  bits : Int
  name : String
  user : String
deriving DecidableEq

/-- A key stored in a ring: reading it back either yields the pair or
raises (modelling an unexpected storage error on read, caught by
`PublicKeyAPI.get`). -/
inductive StoredKey where
  | ok (pair : SSHKeyPair)
  | readError (msg : String)
deriving DecidableEq

/-- The contents of one user's `SSHKeyRing`: an association list from
key name to stored key. -/
abbrev RingEntries := List (String × StoredKey)

/-- The durable per-user key storage, keyed by the profile's workspace:
`SSHKeyRing(base=workspace)` views `store workspace`. -/
abbrev Store := String → RingEntries

/-- Membership test `name in ring` on a ring. -/
def ringContains (ring : RingEntries) (name : String) : Bool :=
  (ring.lookup name).isSome

/-- `SSHKeyRing.remove` per the collaborator contract: drop the entry
with the given name. -/
def removeEntry (ring : RingEntries) (name : String) : RingEntries :=
  ring.filter (fun e => !(e.1 == name))

/-- Point update of the storage at one workspace. -/
def updateStore (store : Store) (base : String) (ring : RingEntries) : Store :=
  fun w => if w = base then ring else store w

/-- One call issued against the external key ring, recorded so that
"the ring is never accessed" is a statement about the emitted trace. -/
inductive RingOp where
  | construct (base : String)
  | member (name : String)
  | generate (algo : String) (bits : Int) (name : String) (comment : String)
  | create (name : String)
  | remove (name : String)
deriving DecidableEq

/-- Outcome of the external `SSHKeyRing.generate` call: a truthy result
(with the generated pair persisted), a falsy result, or a raised error
whose text the handler shows. -/
inductive GenOutcome where
  | ok (pair : SSHKeyPair)
  | failed
  | error (msg : String)

/-- Outcome of the external `SSHKeyRing.create` call: the stored name
(returned by `create` and written back into `item.name`) together with
the parsed pair, or a raised error. -/
inductive CreateOutcome where
  | ok (finalName : String) (pair : SSHKeyPair)
  | error (msg : String)

/-- Result of a dialog press handler: a danger banner with the shown
text, or completion (`on_finish` fired). -/
inductive PressResult where
  | banner (text : String)
  | finish
deriving DecidableEq

/-- Result of the delete confirmation handler: a success or danger
prompt with the shown text. -/
inductive DeleteResult where
  | success (text : String)
  | danger (text : String)
deriving DecidableEq

/-- `CreateComponent._on_press_create` from
`ringwork/components/sshkey.py` (lines 320-348): validate name and
comment, resolve the profile, reject duplicates, then delegate to
`ring.generate`.  Returns the handler result, the storage after the
call and the trace of ring calls issued. -/
def CreateComponent.on_press_create (account : Account) (enduser : EndUser)
    (item : SSHKeyItem) (store : Store) (gen : GenOutcome) :
    PressResult × Store × List RingOp :=
  if item.name = "" then
    (.banner "Please enter a name", store, [])
  else if item.comment = "" then
    (.banner "Please enter a comment", store, [])
  else
    match account.fetch enduser.session_id enduser.secret_key with
    | none => (.banner "Login required", store, [])
    | some profile =>
      let ring := store profile.workspace
      if ringContains ring item.name then
        (.banner "SSH key already exists", store,
          [.construct profile.workspace, .member item.name])
      else
        match gen with
        | .ok pair =>
          (.finish,
            updateStore store profile.workspace (ring ++ [(item.name, .ok pair)]),
            [.construct profile.workspace, .member item.name,
              .generate item.algorithm item.bits item.name item.comment])
        | .failed =>
          (.banner "Failed to generate SSH key", store,
            [.construct profile.workspace, .member item.name,
              .generate item.algorithm item.bits item.name item.comment])
        | .error msg =>
          (.banner msg, store,
            [.construct profile.workspace, .member item.name,
              .generate item.algorithm item.bits item.name item.comment])

/-- `UploadComponent._on_press_save` from
`ringwork/components/sshkey.py` (lines 467-492): validate name and
private text, resolve the profile, reject duplicates, then delegate to
`ring.create` (whose returned name is written back into `item.name`). -/
def UploadComponent.on_press_save (account : Account) (enduser : EndUser)
    (item : SSHKeyItem) (store : Store) (res : CreateOutcome) :
    PressResult × SSHKeyItem × Store × List RingOp :=
  if item.name = "" then
    (.banner "Please enter a name", item, store, [])
  else if item.«private» = "" then
    (.banner "Please enter a private key", item, store, [])
  else
    match account.fetch enduser.session_id enduser.secret_key with
    | none => (.banner "Login required", item, store, [])
    | some profile =>
      let ring := store profile.workspace
      if ringContains ring item.name then
        (.banner "SSH key already exists", item, store,
          [.construct profile.workspace, .member item.name])
      else
        match res with
        | .ok finalName pair =>
          (.finish, { item with name := finalName },
            updateStore store profile.workspace (ring ++ [(finalName, .ok pair)]),
            [.construct profile.workspace, .member item.name, .create item.name])
        | .error msg =>
          (.banner msg, item, store,
            [.construct profile.workspace, .member item.name, .create item.name])

/-- `confirm_delete` inside `SSHKeyComponent._on_press_delete_item` from
`ringwork/components/sshkey.py` (lines 643-656): resolve the profile,
then delegate to `ring.remove(name)`; a `False` remove yields the danger
prompt.  `SSHKeyRing.remove` follows the collaborator contract: it
returns `True` and drops the entry exactly when the name is present. -/
def SSHKeyComponent.confirm_delete (account : Account) (enduser : EndUser)
    (name : String) (store : Store) :
    DeleteResult × Store × List RingOp :=
  match account.fetch enduser.session_id enduser.secret_key with
  | some profile =>
    let ring := store profile.workspace
    if ringContains ring name then
      (.success ("Successfully deleted " ++ name),
        updateStore store profile.workspace (removeEntry ring name),
        [.construct profile.workspace, .remove name])
    else
      (.danger ("Failed to delete " ++ name), store,
        [.construct profile.workspace, .remove name])
  | none => (.danger "Login required", store, [])

/-- The bits normalization performed by `CreateComponent.build`
(`ringwork/components/sshkey.py` lines 377-399) on the item before the
generator can be invoked: `rsa` → `max(1024, bits)`, `dsa` → `1024`,
`ecdsa` → `521` (then restricted to the dropdown options). -/
def CreateComponent.build_bits (algorithm : String) (bits : Int) : Int :=
  if algorithm = "rsa" then max 1024 bits
  else if algorithm = "dsa" then 1024
  else if algorithm = "ecdsa" then 521
  else bits

/-- `CreateComponent._on_change_algorithm` (lines 309-313): switch the
algorithm and reset bits to 4096 when switching to `rsa`. -/
def CreateComponent.on_change_algorithm (item : SSHKeyItem) (value : String) :
    SSHKeyItem :=
  let updated := { item with algorithm := value }
  if value = "rsa" then { updated with bits := 4096 } else updated

/-- The options of the `ecdsa` bits dropdown (line 404). -/
def CreateComponent.ecdsa_bits_options : List Int := [256, 384, 521]

/-- The `on_change` handler of the `ecdsa` bits dropdown (line 402):
store the selected option into `item.bits`. -/
def CreateComponent.on_change_ecdsa_bits (item : SSHKeyItem) (value : Int) :
    SSHKeyItem :=
  { item with bits := value }

/-- `AccessControl.on_session_start` from
`ringwork/components/access.py` (lines 56-60): generate a fresh
`session_id` only when the stored one is empty; `generated` stands for
the external `SessionID.generate()` result. -/
def AccessControl.on_session_start (enduser : EndUser) (generated : String) :
    EndUser :=
  if enduser.session_id = "" then
    { enduser with session_id := generated }
  else enduser

/-- The guard's view of a `rio.GuardEvent`: the session attachments it
looks up; `none` models an attachment whose lookup raises `KeyError`. -/
structure GuardEvent where
  account : Option Account
  enduser : Option EndUser

/-- The body of the `try` block of `Restrict` from
`ringwork/components/access.py` (lines 14-24): look up the account store
and the client token (a missing attachment raises `KeyError`, carried as
the `error` case with the attachment's key name), then resolve.  The
result is the returned redirect together with the profile attached on
success. -/
def RestrictBody (ev : GuardEvent) :
    Except String (Option String × Option Profile) :=
  match ev.account with
  | none => .error "Account"
  | some account =>
    match ev.enduser with
    | none => .error "EndUser"
    | some enduser =>
      match account.fetch enduser.session_id enduser.secret_key with
      | some profile => .ok (none, some profile)
      | none => .ok (some "/public", none)

/-- `Restrict` from `ringwork/components/access.py` (lines 14-24): the
`try ... except KeyError: pass` wrapper around `RestrictBody`; any
`KeyError` falls through to the `"/public"` redirect. -/
def Restrict (ev : GuardEvent) : Option String × Option Profile :=
  match RestrictBody ev with
  | .ok r => r
  | .error _ => (some "/public", none)

/-- The `url_segment` of `LoginPage` (`ringwork/pages/login_page.py`
line 20). -/
def LoginPage.url_segment : String := "login"

/-- The route of the login page, as mounted by `rio.page`. -/
def loginRoute : String := "/" ++ LoginPage.url_segment

/-- The user record returned by the external
`rio_xpw.AccessControl.activate`; the login handler reads only its
`secret_key`. -/
structure AuthUser where
  secret_key : String
deriving DecidableEq

/-- Result of the login handler: the "Please try again." danger banner,
or navigation to the computed target URL. -/
inductive LoginOutcome where
  | tryAgain
  | navigate (target : String)
deriving DecidableEq

/-- `LoginPage._login` from `ringwork/pages/login_page.py` (lines
36-67): delegate the credential check to the external
`AccessControl.activate(username, password, session_id)`; on failure
show the banner and leave the token alone; on success store the issued
`secret_key` and navigate to the `target` query parameter of the active
page URL, defaulting to `"/"`. -/
def LoginPage.login (activate : String → String → String → Option AuthUser)
    (username password : String) (enduser : EndUser)
    (queryTarget : Option String) : LoginOutcome × EndUser :=
  match activate username password enduser.session_id with
  | none => (.tryAgain, enduser)
  | some user =>
    (.navigate (queryTarget.getD "/"), { enduser with secret_key := user.secret_key })

/-- An HTTP outcome of the public-key endpoints: a plain-text response
with its explicitly set headers, or a raised `HTTPException`. -/
inductive ApiResponse where
  | ok (body : String) (headers : List (String × String))
  | httpError (status : Nat)
deriving DecidableEq

/-- `PublicKeyAPI.get` from `ringwork/interfaces/sshkey.py` (lines
33-46): view the ring of the profile resolved from `uid` (via
`workspace_of`, modelling `Profile(accounts, username=uid).workspace`);
a missing `kid` raises 404, a failing read of an existing key raises
500, otherwise the body is the pair's public text. -/
def PublicKeyAPI.get (workspace_of : String → String) (store : Store)
    (uid kid : String) : ApiResponse :=
  let keyring := store (workspace_of uid)
  match keyring.lookup kid with
  | none => .httpError 404
  | some (.readError _) => .httpError 500
  | some (.ok pair) => .ok pair.public []

/-- `PublicKeyAPI.download` from `ringwork/interfaces/sshkey.py` (lines
48-52): call `get` (propagating its `HTTPException`) and set the
`Cache-Control` and `Content-Disposition` headers on the response. -/
def PublicKeyAPI.download (workspace_of : String → String) (store : Store)
    (uid kid : String) : ApiResponse :=
  match PublicKeyAPI.get workspace_of store uid kid with
  | .httpError s => .httpError s
  | .ok body headers =>
    .ok body (headers ++
      [("Cache-Control", "no-cache"),
        ("Content-Disposition", "attachment; filename=" ++ kid ++ ".pub")])

/-!  Theorems settling the claims.  -/

/-- C1: every mutating operation (Generate, Import, Delete) invoked with
a token whose profile resolution via the account gateway fails yields
exactly the `Login required` failure, leaves the storage untouched, and
issues no ring call at all (empty trace: no ring is constructed and no
enumerate/generate/create/remove call is made). -/
theorem C1_mutating_ops_login_required (account : Account) (enduser : EndUser)
    (item : SSHKeyItem) (store : Store) (gen : GenOutcome) (res : CreateOutcome)
    (name : String)
    (hfetch : account.fetch enduser.session_id enduser.secret_key = none)
    (hname : item.name ≠ "") (hcomment : item.comment ≠ "")
    (hpriv : item.«private» ≠ "") :
    CreateComponent.on_press_create account enduser item store gen
      = (.banner "Login required", store, [])
    ∧ UploadComponent.on_press_save account enduser item store res
      = (.banner "Login required", item, store, [])
    ∧ SSHKeyComponent.confirm_delete account enduser name store
      = (.danger "Login required", store, []) := by
  refine ⟨?_, ?_, ?_⟩ <;>
    simp [CreateComponent.on_press_create, UploadComponent.on_press_save,
      SSHKeyComponent.confirm_delete, hname, hcomment, hpriv, hfetch]

/-- Witness for C1 at a concrete failing token. -/
theorem C1_mutating_ops_login_required_witness :
    CreateComponent.on_press_create ⟨fun _ _ => none⟩ ⟨"sid", "sk"⟩
        ⟨"rsa", "", "c", "p", "", 4096, "k", ""⟩ (fun _ => []) .failed
      = (.banner "Login required", fun _ => [], [])
    ∧ UploadComponent.on_press_save ⟨fun _ _ => none⟩ ⟨"sid", "sk"⟩
        ⟨"rsa", "", "c", "p", "", 4096, "k", ""⟩ (fun _ => []) (.error "x")
      = (.banner "Login required",
          ⟨"rsa", "", "c", "p", "", 4096, "k", ""⟩, fun _ => [], [])
    ∧ SSHKeyComponent.confirm_delete ⟨fun _ _ => none⟩ ⟨"sid", "sk"⟩ "k"
        (fun _ => [])
      = (.danger "Login required", fun _ => [], []) :=
  C1_mutating_ops_login_required ⟨fun _ _ => none⟩ ⟨"sid", "sk"⟩
    ⟨"rsa", "", "c", "p", "", 4096, "k", ""⟩ (fun _ => []) .failed (.error "x")
    "k" rfl (by decide) (by decide) (by decide)

/-- C2: the bits normalization performed before the generator can run
maps a requested value `b` exactly to `max 1024 b` for `rsa`, to the
constant `1024` for `dsa` regardless of `b`, and to a member of
`{256, 384, 521}` for `ecdsa` (the `build` reset and every dropdown
selection land in that set). -/
theorem C2_generate_bits_normalization (b : Int) (item : SSHKeyItem) (v : Int)
    (hv : v ∈ CreateComponent.ecdsa_bits_options) :
    CreateComponent.build_bits "rsa" b = max 1024 b
    ∧ CreateComponent.build_bits "dsa" b = 1024
    ∧ CreateComponent.build_bits "ecdsa" b ∈ CreateComponent.ecdsa_bits_options
    ∧ (CreateComponent.on_change_ecdsa_bits item v).bits
        ∈ CreateComponent.ecdsa_bits_options := by
  refine ⟨?_, ?_, ?_, ?_⟩
  · simp [CreateComponent.build_bits]
  · simp [CreateComponent.build_bits]
  · simp [CreateComponent.build_bits, CreateComponent.ecdsa_bits_options]
  · simpa [CreateComponent.on_change_ecdsa_bits] using hv

/-- Witness for C2 at the concrete request `b = 512`, `v = 384`. -/
theorem C2_generate_bits_normalization_witness :
    CreateComponent.build_bits "rsa" 512 = max 1024 512
    ∧ CreateComponent.build_bits "dsa" 512 = 1024
    ∧ CreateComponent.build_bits "ecdsa" 512 ∈ CreateComponent.ecdsa_bits_options
    ∧ (CreateComponent.on_change_ecdsa_bits
        ⟨"ecdsa", "", "c", "p", "", 521, "k", ""⟩ 384).bits
        ∈ CreateComponent.ecdsa_bits_options :=
  C2_generate_bits_normalization 512 ⟨"ecdsa", "", "c", "p", "", 521, "k", ""⟩
    384 (by decide)

/-- C3: Generate and Import with a name already present in the resolved
profile's ring yield the Conflict failure (`SSH key already exists`),
leave the storage exactly as it was, and issue no generate/create call
(the trace holds only the ring construction and the membership test). -/
theorem C3_duplicate_name_conflict (account : Account) (enduser : EndUser)
    (item : SSHKeyItem) (store : Store) (gen : GenOutcome) (res : CreateOutcome)
    (profile : Profile)
    (hfetch : account.fetch enduser.session_id enduser.secret_key = some profile)
    (hname : item.name ≠ "") (hcomment : item.comment ≠ "")
    (hpriv : item.«private» ≠ "")
    (hmem : ringContains (store profile.workspace) item.name = true) :
    CreateComponent.on_press_create account enduser item store gen
      = (.banner "SSH key already exists", store,
          [.construct profile.workspace, .member item.name])
    ∧ UploadComponent.on_press_save account enduser item store res
      = (.banner "SSH key already exists", item, store,
          [.construct profile.workspace, .member item.name]) := by
  constructor <;>
    simp [CreateComponent.on_press_create, UploadComponent.on_press_save,
      hname, hcomment, hpriv, hfetch, hmem]

/-- Witness for C3 at a concrete ring already holding the name `k`. -/
theorem C3_duplicate_name_conflict_witness :
    CreateComponent.on_press_create ⟨fun _ _ => some ⟨"alice", "ws"⟩⟩
        ⟨"sid", "sk"⟩ ⟨"rsa", "", "c", "p", "", 4096, "k", ""⟩
        (fun _ => [("k", .ok ⟨"rsa", "fp", "c", "p", "pub", 2048⟩)]) .failed
      = (.banner "SSH key already exists",
          fun _ => [("k", .ok ⟨"rsa", "fp", "c", "p", "pub", 2048⟩)],
          [.construct "ws", .member "k"])
    ∧ UploadComponent.on_press_save ⟨fun _ _ => some ⟨"alice", "ws"⟩⟩
        ⟨"sid", "sk"⟩ ⟨"rsa", "", "c", "p", "", 4096, "k", ""⟩
        (fun _ => [("k", .ok ⟨"rsa", "fp", "c", "p", "pub", 2048⟩)]) (.error "x")
      = (.banner "SSH key already exists",
          ⟨"rsa", "", "c", "p", "", 4096, "k", ""⟩,
          fun _ => [("k", .ok ⟨"rsa", "fp", "c", "p", "pub", 2048⟩)],
          [.construct "ws", .member "k"]) :=
  C3_duplicate_name_conflict ⟨fun _ _ => some ⟨"alice", "ws"⟩⟩ ⟨"sid", "sk"⟩
    ⟨"rsa", "", "c", "p", "", 4096, "k", ""⟩
    (fun _ => [("k", .ok ⟨"rsa", "fp", "c", "p", "pub", 2048⟩)]) .failed
    (.error "x") ⟨"alice", "ws"⟩ rfl (by decide) (by decide) (by decide) rfl

/-- C4: the session-start token-ensuring step is idempotent: a token
with a non-empty `session_id` is returned unchanged (both fields); only
a token with an empty `session_id` gets the freshly generated
`session_id`, its `secret_key` staying as stored (hence empty when it
was empty); and a second run after a successful first run is a no-op. -/
theorem C4_ensure_token_idempotent (u : EndUser) (g g2 : String) :
    (u.session_id ≠ "" → AccessControl.on_session_start u g = u)
    ∧ (u.session_id = "" →
        AccessControl.on_session_start u g
          = { session_id := g, secret_key := u.secret_key })
    ∧ (u.secret_key = "" →
        (AccessControl.on_session_start u g).secret_key = "")
    ∧ (g ≠ "" →
        AccessControl.on_session_start (AccessControl.on_session_start u g) g2
          = AccessControl.on_session_start u g) := by
  refine ⟨?_, ?_, ?_, ?_⟩
  · intro h; simp [AccessControl.on_session_start, h]
  · intro h; simp [AccessControl.on_session_start, h]
  · intro h
    by_cases hs : u.session_id = "" <;>
      simp [AccessControl.on_session_start, hs, h]
  · intro hg
    by_cases hs : u.session_id = "" <;>
      simp [AccessControl.on_session_start, hs, hg]

/-- Witness for C4 at a concrete already-populated token. -/
theorem C4_ensure_token_idempotent_witness :
    AccessControl.on_session_start ⟨"sid", "sk"⟩ "fresh"
      = (⟨"sid", "sk"⟩ : EndUser) :=
  (C4_ensure_token_idempotent ⟨"sid", "sk"⟩ "fresh" "again").1 (by decide)

/-- C5: deleting a name not present in the resolved profile's ring
yields the `Failed to delete` danger prompt (the ring's `remove` returns
`False`) and leaves the storage exactly as it was. -/
theorem C5_delete_missing_key (account : Account) (enduser : EndUser)
    (name : String) (store : Store) (profile : Profile)
    (hfetch : account.fetch enduser.session_id enduser.secret_key = some profile)
    (hmem : ringContains (store profile.workspace) name = false) :
    SSHKeyComponent.confirm_delete account enduser name store
      = (.danger ("Failed to delete " ++ name), store,
          [.construct profile.workspace, .remove name]) := by
  simp [SSHKeyComponent.confirm_delete, hfetch, hmem]

/-- Witness for C5 at a concrete empty ring. -/
theorem C5_delete_missing_key_witness :
    SSHKeyComponent.confirm_delete ⟨fun _ _ => some ⟨"alice", "ws"⟩⟩
        ⟨"sid", "sk"⟩ "k" (fun _ => [])
      = (.danger ("Failed to delete " ++ "k"), fun _ => [],
          [.construct "ws", .remove "k"]) :=
  C5_delete_missing_key ⟨fun _ _ => some ⟨"alice", "ws"⟩⟩ ⟨"sid", "sk"⟩ "k"
    (fun _ => []) ⟨"alice", "ws"⟩ rfl rfl

/-- C6 counterexample: on a concrete failing guard evaluation the
returned redirect is `"/public"`, which is not the login route mounted
for `LoginPage`, refuting "a failed guard redirects to a login
route". -/
theorem C6_guard_redirect_counterexample :
    (Restrict ⟨some ⟨fun _ _ => none⟩, some ⟨"sid", ""⟩⟩).1 = some "/public"
    ∧ (some "/public" : Option String) ≠ some loginRoute :=
  ⟨rfl, by decide⟩

/-- C6 (amended): a guard evaluation where the token does not resolve
returns a redirect to the public route `"/public"` (not the login
route), carrying no return-to target; when the token resolves, the guard
returns no redirect and attaches the profile; and, independently, after
a successful login the login handler navigates to the `target` query
parameter of the login URL, defaulting to `"/"`. -/
theorem C6_guard_redirects_to_public (account : Account) (enduser : EndUser)
    (activate : String → String → String → Option AuthUser)
    (username password : String) (user : AuthUser) (queryTarget : Option String)
    (hact : activate username password enduser.session_id = some user) :
    (account.fetch enduser.session_id enduser.secret_key = none →
      Restrict ⟨some account, some enduser⟩ = (some "/public", none))
    ∧ (∀ profile,
        account.fetch enduser.session_id enduser.secret_key = some profile →
        Restrict ⟨some account, some enduser⟩ = (none, some profile))
    ∧ (LoginPage.login activate username password enduser queryTarget).1
        = .navigate (queryTarget.getD "/") := by
  refine ⟨?_, ?_, ?_⟩
  · intro h; simp [Restrict, RestrictBody, h]
  · intro profile h; simp [Restrict, RestrictBody, h]
  · simp [LoginPage.login, hact]

/-- Witness for C6 at a concrete failing token and succeeding login. -/
theorem C6_guard_redirects_to_public_witness :
    Restrict ⟨some ⟨fun _ _ => none⟩, some ⟨"sid", "sk"⟩⟩
      = (some "/public", none) :=
  (C6_guard_redirects_to_public ⟨fun _ _ => none⟩ ⟨"sid", "sk"⟩
    (fun _ _ _ => some ⟨"issued"⟩) "u" "p" ⟨"issued"⟩ none rfl).1 rfl

/-- C7: a login attempt whose credential check fails at the account
gateway reports the `Please try again.` failure and does not modify the
client-persisted token: the returned token is the input token, so both
`session_id` and `secret_key` keep their previous values. -/
theorem C7_failed_login_preserves_token
    (activate : String → String → String → Option AuthUser)
    (username password : String) (enduser : EndUser)
    (queryTarget : Option String)
    (hfail : activate username password enduser.session_id = none) :
    LoginPage.login activate username password enduser queryTarget
      = (.tryAgain, enduser) := by
  simp [LoginPage.login, hfail]

/-- Witness for C7 at a concrete failing credential check. -/
theorem C7_failed_login_preserves_token_witness :
    LoginPage.login (fun _ _ _ => none) "u" "p" ⟨"sid", "sk"⟩ (some "/ssh")
      = (.tryAgain, ⟨"sid", "sk"⟩) :=
  C7_failed_login_preserves_token (fun _ _ _ => none) "u" "p" ⟨"sid", "sk"⟩
    (some "/ssh") rfl

/-- C8: the raw public-key endpoint returns the not-found response (404)
when the key name is not in the user's ring, the server-error response
(500) when reading the existing key fails, and on success a response
whose body is exactly the key pair's public text — in every case a
structured response, never an unhandled exception. -/
theorem C8_public_key_raw_endpoint (workspace_of : String → String)
    (store : Store) (uid kid : String) :
    (ringContains (store (workspace_of uid)) kid = false →
      PublicKeyAPI.get workspace_of store uid kid = .httpError 404)
    ∧ (∀ msg, (store (workspace_of uid)).lookup kid = some (.readError msg) →
      PublicKeyAPI.get workspace_of store uid kid = .httpError 500)
    ∧ (∀ pair, (store (workspace_of uid)).lookup kid = some (.ok pair) →
      PublicKeyAPI.get workspace_of store uid kid = .ok pair.public []) := by
  refine ⟨?_, ?_, ?_⟩
  · intro hmem
    cases hl : (store (workspace_of uid)).lookup kid with
    | none => simp [PublicKeyAPI.get, hl]
    | some v =>
      simp only [ringContains, hl, Option.isSome_some] at hmem
      exact absurd hmem (by decide)
  · intro msg h; simp [PublicKeyAPI.get, h]
  · intro pair h; simp [PublicKeyAPI.get, h]

/-- Witness for C8 at a concrete ring without the requested key. -/
theorem C8_public_key_raw_endpoint_witness :
    PublicKeyAPI.get (fun u => u)
        (fun _ => [("k", .ok ⟨"rsa", "fp", "c", "p", "pub", 2048⟩)])
        "alice" "missing"
      = .httpError 404 :=
  (C8_public_key_raw_endpoint (fun u => u)
    (fun _ => [("k", .ok ⟨"rsa", "fp", "c", "p", "pub", 2048⟩)])
    "alice" "missing").1 rfl

/-- C9: whenever the raw endpoint succeeds, the download endpoint
returns the identical body and additionally sets `Cache-Control:
no-cache` and `Content-Disposition: attachment; filename=<kid>.pub`;
whenever the raw endpoint fails, the download endpoint fails with the
same status. -/
theorem C9_download_matches_raw (workspace_of : String → String)
    (store : Store) (uid kid : String) :
    (∀ body headers,
      PublicKeyAPI.get workspace_of store uid kid = .ok body headers →
      PublicKeyAPI.download workspace_of store uid kid
        = .ok body (headers ++
            [("Cache-Control", "no-cache"),
              ("Content-Disposition",
                "attachment; filename=" ++ kid ++ ".pub")]))
    ∧ (∀ s, PublicKeyAPI.get workspace_of store uid kid = .httpError s →
      PublicKeyAPI.download workspace_of store uid kid = .httpError s) := by
  constructor
  · intro body headers h; simp [PublicKeyAPI.download, h]
  · intro s h; simp [PublicKeyAPI.download, h]

/-- Witness for C9 at a concrete ring holding the requested key. -/
theorem C9_download_matches_raw_witness :
    PublicKeyAPI.download (fun u => u)
        (fun _ => [("k", .ok ⟨"rsa", "fp", "c", "p", "pub", 2048⟩)])
        "alice" "k"
      = .ok "pub"
          ([] ++
            [("Cache-Control", "no-cache"),
              ("Content-Disposition", "attachment; filename=" ++ "k" ++ ".pub")]) :=
  (C9_download_matches_raw (fun u => u)
    (fun _ => [("k", .ok ⟨"rsa", "fp", "c", "p", "pub", 2048⟩)])
    "alice" "k").1 "pub" [] rfl

/-- C10: the page guard is total — when the account store or the client
token attachment is missing (its lookup raises `KeyError`, i.e. the
guard body errors), the guard catches the error and returns the
unauthenticated redirect rather than propagating any exception. -/
theorem C10_guard_total_on_missing_attachments (ev : GuardEvent)
    (h : ev.account = none ∨ ev.enduser = none) :
    (∃ key, RestrictBody ev = .error key)
    ∧ Restrict ev = (some "/public", none) := by
  rcases h with h | h
  · exact ⟨⟨"Account", by simp [RestrictBody, h]⟩,
      by simp [Restrict, RestrictBody, h]⟩
  · cases hacc : ev.account with
    | none =>
      exact ⟨⟨"Account", by simp [RestrictBody, hacc]⟩,
        by simp [Restrict, RestrictBody, hacc]⟩
    | some a =>
      exact ⟨⟨"EndUser", by simp [RestrictBody, hacc, h]⟩,
        by simp [Restrict, RestrictBody, hacc, h]⟩

/-- Witness for C10 at a session with both attachments missing. -/
theorem C10_guard_total_on_missing_attachments_witness :
    (∃ key, RestrictBody ⟨none, none⟩ = .error key)
    ∧ Restrict ⟨none, none⟩ = (some "/public", none) :=
  C10_guard_total_on_missing_attachments ⟨none, none⟩ (Or.inl rfl)

end Ringwork
